import Mathlib

/-!
Verification of the pilot-in-command media-pipeline orchestration core:
a shallow embedding of the VRAM admission check (`src/utils/vram.py`),
the job lifecycle state machine and its serialization
(`src/orchestration/jobs.py`), the file-backed job queue
(`src/orchestration/queue.py`), and the pipeline coordinator
(`src/orchestration/coordinator.py`), together with theorems settling
the specification claims about them.
-/

namespace Pilot

/-! ## VRAM manager (`src/utils/vram.py`) -/

/-- Mirrors `VRAMStatus`: memory figures in MB plus the CUDA flag.
Python ints are modelled as `Int` (subtraction can go negative). -/
structure VRAMStatus where
  totalMB : Int
  usedMB : Int
  freeMB : Int
  cudaAvailable : Bool
deriving DecidableEq, Repr

/-- The observable state a `VRAMManager` reads: whether CUDA is available
and, when it is, the device memory figures reported by
`torch.cuda.mem_get_info` (already converted to MB). -/
structure VRAMManager where
  cudaAvailable : Bool
  totalMB : Int
  freeMB : Int
deriving DecidableEq, Repr

/-- Mirrors `VRAMManager.get_status`: zeroed status in CPU mode, otherwise
the device figures with `used = total - free`. -/
def VRAMManager.getStatus (m : VRAMManager) : VRAMStatus :=
  if m.cudaAvailable = false then
    { totalMB := 0, usedMB := 0, freeMB := 0, cudaAvailable := false }
  else
    { totalMB := m.totalMB
      usedMB := m.totalMB - m.freeMB
      freeMB := m.freeMB
      cudaAvailable := true }

/-- Mirrors `VRAMManager.can_load`: always `true` in CPU mode, otherwise
`free - margin >= required` against the status report. -/
def VRAMManager.canLoad (m : VRAMManager) (requiredMB : Int)
    (safetyMarginMB : Int) : Bool :=
  if m.cudaAvailable = false then
    true
  else
    let status := m.getStatus
    let availableMB := status.freeMB - safetyMarginMB
    decide (availableMB ≥ requiredMB)

/-! ## Job model (`src/orchestration/jobs.py`) -/

/-- Mirrors `JobStatus`, a string-valued enum. -/
inductive JobStatus where
  | pending
  | running
  | completed
  | failed
  | cancelled
deriving DecidableEq, Repr

/-- The `.value` string of each `JobStatus` member. -/
def JobStatus.value : JobStatus → String
  | .pending => "pending"
  | .running => "running"
  | .completed => "completed"
  | .failed => "failed"
  | .cancelled => "cancelled"

/-- Mirrors the `JobStatus(data["status"])` enum construction, which
raises (here: `none`) on an unknown string. -/
def JobStatus.ofString : String → Option JobStatus
  | "pending" => some .pending
  | "running" => some .running
  | "completed" => some .completed
  | "failed" => some .failed
  | "cancelled" => some .cancelled
  | _ => none

/-- Terminal statuses: no further transition is possible from these. -/
def JobStatus.isTerminal : JobStatus → Bool
  | .completed => true
  | .failed => true
  | .cancelled => true
  | _ => false

/-- Mirrors `JobType`, a string-valued enum. -/
inductive JobType where
  | fullPipeline
  | voiceClone
  | voiceSynthesis
  | avatarGeneration
  | videoLipsync
  | videoEncoding
deriving DecidableEq, Repr

/-- The `.value` string of each `JobType` member. -/
def JobType.value : JobType → String
  | .fullPipeline => "full_pipeline"
  | .voiceClone => "voice_clone"
  | .voiceSynthesis => "voice_synthesis"
  | .avatarGeneration => "avatar_generation"
  | .videoLipsync => "video_lipsync"
  | .videoEncoding => "video_encoding"

/-- Mirrors the `JobType(data["job_type"])` enum construction. -/
def JobType.ofString : String → Option JobType
  | "full_pipeline" => some .fullPipeline
  | "voice_clone" => some .voiceClone
  | "voice_synthesis" => some .voiceSynthesis
  | "avatar_generation" => some .avatarGeneration
  | "video_lipsync" => some .videoLipsync
  | "video_encoding" => some .videoEncoding
  | _ => none

/-- JSON-like values, modelling the arbitrary nested dictionaries Python
passes around as job `params` and `result`. -/
inductive JsonVal where
  | jnull
  | jbool (b : Bool)
  | jnum (n : Int)
  | jstr (s : String)
  | jarr (xs : List JsonVal)
  | jobj (fields : List (String × JsonVal))

/-- Mirrors the `Job` dataclass. Timestamps are the ISO strings the code
stores; floats are modelled as rationals. -/
structure Job where
  jobId : String
  status : JobStatus
  jobType : JobType
  params : JsonVal
  createdAt : String
  startedAt : Option String := none
  completedAt : Option String := none
  result : Option JsonVal := none
  error : Option String := none
  progress : ℚ := 0
  stage : String := "Queued"

/-- Mirrors `Job.create`: a fresh `PENDING` job with default fields. The
generated id and the `utcnow` timestamp are passed in explicitly. -/
def Job.create (jobId : String) (jobType : JobType) (params : JsonVal)
    (createdAt : String) : Job :=
  { jobId := jobId
    status := .pending
    jobType := jobType
    params := params
    createdAt := createdAt }

/-- Mirrors `Job.start`; `now` is the `utcnow` timestamp string. -/
def Job.start (j : Job) (now : String) : Job :=
  { j with status := .running, startedAt := some now, progress := 0,
           stage := "Starting" }

/-- Mirrors `Job.complete`. -/
def Job.complete (j : Job) (result : JsonVal) (now : String) : Job :=
  { j with status := .completed, completedAt := some now,
           result := some result, progress := 1, stage := "Completed" }

/-- Mirrors `Job.fail`. -/
def Job.fail (j : Job) (error : String) (now : String) : Job :=
  { j with status := .failed, completedAt := some now,
           error := some error, stage := "Failed" }

/-- Mirrors `Job.cancel`. -/
def Job.cancel (j : Job) (now : String) : Job :=
  { j with status := .cancelled, completedAt := some now,
           stage := "Cancelled" }

/-- Mirrors `Job.update_progress`: clamp to [0, 1] and replace the stage
label. -/
def Job.updateProgress (j : Job) (progress : ℚ) (stage : String) : Job :=
  { j with progress := max 0 (min 1 progress), stage := stage }

/-- The dictionary shape produced by `Job.to_dict`: same fields, with the
two enums replaced by their `.value` strings. -/
structure JobDict where
  jobId : String
  status : String
  jobType : String
  params : JsonVal
  createdAt : String
  startedAt : Option String
  completedAt : Option String
  result : Option JsonVal
  error : Option String
  progress : ℚ
  stage : String

/-- Mirrors `Job.to_dict`: `asdict` then enum-to-string conversion. -/
def Job.toDict (j : Job) : JobDict :=
  { jobId := j.jobId
    status := j.status.value
    jobType := j.jobType.value
    params := j.params
    createdAt := j.createdAt
    startedAt := j.startedAt
    completedAt := j.completedAt
    result := j.result
    error := j.error
    progress := j.progress
    stage := j.stage }

/-- Mirrors `Job.from_dict`: parse the two enum strings back (raising,
i.e. `none`, on an unknown string) and rebuild the dataclass. -/
def Job.fromDict (d : JobDict) : Option Job :=
  match JobStatus.ofString d.status, JobType.ofString d.jobType with
  | some s, some t =>
      some { jobId := d.jobId
             status := s
             jobType := t
             params := d.params
             createdAt := d.createdAt
             startedAt := d.startedAt
             completedAt := d.completedAt
             result := d.result
             error := d.error
             progress := d.progress
             stage := d.stage }
  | _, _ => none

/-! ## Job queue (`src/orchestration/queue.py`)

The queue stores each job as a JSON file `jobs/{job_id}.json` holding its
`to_dict` form; the file system is modelled as an association list from
job id to `JobDict`. Whether a write succeeds is an environment fact, so
`_save_job`'s outcome is driven by an explicit `saveOk` flag. -/

/-- Look a job file up by id, mirroring `job_file.exists()` + `json.load`. -/
def lookupEntry : List (String × JobDict) → String → Option JobDict
  | [], _ => none
  | (k, v) :: rest, id => if k = id then some v else lookupEntry rest id

/-- Overwrite-or-create the job file for an id, mirroring `open(..., "w")`. -/
def saveEntry : List (String × JobDict) → String → JobDict →
    List (String × JobDict)
  | [], id, d => [(id, d)]
  | (k, v) :: rest, id, d =>
      if k = id then (id, d) :: rest else (k, v) :: saveEntry rest id d

/-- The on-disk state of a `JobQueue`: its `jobs/` directory. -/
structure JobQueue where
  store : List (String × JobDict)

/-- Mirrors `JobQueue._save_job`: writes the serialized job, raising
`IOError` (the `Except.error` branch) when the underlying write fails. -/
def JobQueue.saveJob (q : JobQueue) (saveOk : Bool) (job : Job) :
    Except String JobQueue :=
  if saveOk then .ok { store := saveEntry q.store job.jobId job.toDict }
  else .error "Job save failed"

/-- Mirrors `JobQueue.submit`: create the job and persist it; a raised
`IOError` from `_save_job` propagates to the caller. -/
def JobQueue.submit (q : JobQueue) (saveOk : Bool) (jobId : String)
    (jobType : JobType) (params : JsonVal) (createdAt : String) :
    Except String (String × JobQueue) :=
  let job := Job.create jobId jobType params createdAt
  match q.saveJob saveOk job with
  | .ok q' => .ok (job.jobId, q')
  | .error e => .error e

/-- Mirrors `JobQueue.get`: `None` when the file is missing or fails to
parse, otherwise the deserialized job. -/
def JobQueue.get (q : JobQueue) (jobId : String) : Option Job :=
  match lookupEntry q.store jobId with
  | none => none
  | some d => Job.fromDict d

/-- Mirrors `JobQueue.update`: `true` on a successful save, `false` when
`_save_job` raises (the exception is caught and logged). -/
def JobQueue.update (q : JobQueue) (saveOk : Bool) (job : Job) :
    Bool × JobQueue :=
  match q.saveJob saveOk job with
  | .ok q' => (true, q')
  | .error _ => (false, q)

/-- Mirrors `JobQueue.cancel`: reject unknown ids and non-pending jobs;
otherwise mark the job cancelled and persist via `update`, whose boolean
result the source discards before returning `true`. -/
def JobQueue.cancel (q : JobQueue) (saveOk : Bool) (jobId : String)
    (now : String) : Bool × JobQueue :=
  match q.get jobId with
  | none => (false, q)
  | some job =>
      if job.status ≠ JobStatus.pending then (false, q)
      else
        let job' := job.cancel now
        let updated := q.update saveOk job'
        (true, updated.2)

/-! ## Pipeline coordinator (`src/orchestration/coordinator.py`) -/

/-- Mirrors `PipelineConfig` (the fields the control flow reads). -/
structure PipelineConfig where
  maxVideoLengthSeconds : Int := 120
  cleanupIntermediates : Bool := true

/-- The `PipelineConfig()` the coordinator builds when the caller passes
none. -/
def defaultPipelineConfig : PipelineConfig := {}

/-- Mirrors `PipelineResult` (paths as strings, floats as rationals). -/
structure PipelineResult where
  success : Bool
  outputPath : Option String
  durationSeconds : ℚ
  stagesCompleted : List String
  error : Option String
  processingTimeSeconds : ℚ
  intermediateFiles : Option (List (String × String))

/-- Outcome of the TTS stage as `execute` observes it. -/
structure SynthesisOutcome where
  success : Bool
  error : String
  durationSeconds : ℚ
  audioPath : String

/-- Outcome of the lip-sync stage as `execute` observes it. -/
structure LipsyncOutcome where
  success : Bool
  error : String
  videoPath : String

/-- Outcome of the encode stage as `execute` observes it. -/
structure EncodingOutcome where
  success : Bool
  error : String
  durationSeconds : ℚ

/-- Everything external that decides `execute`'s control flow: whether
each stage call succeeds and what it reports. `loadProfileOk` is whether
`load_profile` returns rather than raises. -/
structure PipelineEnv where
  loadProfileOk : Bool
  synthesis : SynthesisOutcome
  avatarExists : Bool
  faceDetected : Bool
  faceValid : Bool
  lipsync : LipsyncOutcome
  encoding : EncodingOutcome
  processingTime : ℚ

/-- The fixed stage sequence of a full successful run. -/
def fullStages : List String :=
  ["load_profile", "synthesize_speech", "validate_avatar",
   "generate_lipsync", "encode_video"]

/-- The `except` branch of `execute`: a failed run reports the stages
completed so far and the error text, with `intermediate_files=None`. -/
def failResult (stages : List String) (err : String) (pt : ℚ) :
    PipelineResult :=
  { success := false
    outputPath := none
    durationSeconds := 0
    stagesCompleted := stages
    error := some err
    processingTimeSeconds := pt
    intermediateFiles := none }

/-- Mirrors `PipelineCoordinator.execute`: the five stages in order, each
appending to `stages_completed` on completion and recording intermediate
artifact paths, with any stage failure raising into the `except` branch.
The duration ceiling is checked right after speech synthesis. -/
def execute (config : PipelineConfig) (env : PipelineEnv)
    (outputPath : String) : PipelineResult :=
  if env.loadProfileOk = false then
    failResult [] "Profile not found" env.processingTime
  else if env.synthesis.success = false then
    failResult ["load_profile"]
      ("Speech synthesis failed: " ++ env.synthesis.error)
      env.processingTime
  else if env.synthesis.durationSeconds >
      (config.maxVideoLengthSeconds : ℚ) then
    failResult ["load_profile", "synthesize_speech"] "Audio too long"
      env.processingTime
  else if env.avatarExists = false then
    failResult ["load_profile", "synthesize_speech"]
      "Avatar image not found" env.processingTime
  else if env.faceDetected = false then
    failResult ["load_profile", "synthesize_speech"]
      "No face detected in avatar image" env.processingTime
  else if env.faceValid = false then
    failResult ["load_profile", "synthesize_speech"]
      "Avatar face validation failed" env.processingTime
  else if env.lipsync.success = false then
    failResult ["load_profile", "synthesize_speech", "validate_avatar"]
      ("Lip-sync generation failed: " ++ env.lipsync.error)
      env.processingTime
  else if env.encoding.success = false then
    failResult
      ["load_profile", "synthesize_speech", "validate_avatar",
       "generate_lipsync"]
      ("Video encoding failed: " ++ env.encoding.error)
      env.processingTime
  else
    { success := true
      outputPath := some outputPath
      durationSeconds := env.encoding.durationSeconds
      stagesCompleted := fullStages
      error := none
      processingTimeSeconds := env.processingTime
      intermediateFiles :=
        if config.cleanupIntermediates then none
        else some [("audio", env.synthesis.audioPath),
                   ("lipsync", env.lipsync.videoPath)] }

/-! ## Job lifecycle operation sequences

The job worker drives a `Job` through the mutators above. A sequence of
operations respects the status state machine when each operation is
permitted by the current status: `start` and `cancel` only from
`pending`, `complete` and `fail` only from `running`, progress updates
only before a terminal status. -/

/-- One mutating call on a `Job` (timestamps passed explicitly). -/
inductive JobOp where
  | start (now : String)
  | complete (result : JsonVal) (now : String)
  | fail (error : String) (now : String)
  | cancel (now : String)
  | updateProgress (progress : ℚ) (stage : String)

/-- Apply one operation (the corresponding `Job` method). -/
def Job.applyOp (j : Job) : JobOp → Job
  | .start now => j.start now
  | .complete result now => j.complete result now
  | .fail error now => j.fail error now
  | .cancel now => j.cancel now
  | .updateProgress p stage => j.updateProgress p stage

/-- Apply a sequence of operations left to right. -/
def Job.applyOps (j : Job) (ops : List JobOp) : Job :=
  ops.foldl Job.applyOp j

/-- Whether the status state machine permits an operation. -/
def JobStatus.allows (s : JobStatus) : JobOp → Bool
  | .start _ => s = .pending
  | .complete _ _ => s = .running
  | .fail _ _ => s = .running
  | .cancel _ => s = .pending
  | .updateProgress _ _ => s.isTerminal = false

/-- A sequence of operations respects the state machine from `j`. -/
def Job.validOps (j : Job) : List JobOp → Bool
  | [] => true
  | op :: rest => j.status.allows op && (j.applyOp op).validOps rest

/-- The lifecycle invariant of claim C9: `result` and `error` are never
both set, and both stay `none` while the status is non-terminal. -/
def resultErrorInv (j : Job) : Prop :=
  (j.result = none ∨ j.error = none) ∧
    (j.status.isTerminal = false → j.result = none ∧ j.error = none)

/-! ## Concrete sample data for witnesses and counterexamples -/

/-- A pipeline environment in which every stage succeeds and the
synthesized audio lasts 5 seconds. -/
def envAllOk : PipelineEnv :=
  { loadProfileOk := true
    synthesis := { success := true
                   error := ""
                   durationSeconds := 5
                   audioPath := "/tmp/s.wav" }
    avatarExists := true
    faceDetected := true
    faceValid := true
    lipsync := { success := true
                 error := ""
                 videoPath := "/tmp/l.mp4" }
    encoding := { success := true
                  error := ""
                  durationSeconds := 5 }
    processingTime := 1 }

/-- Like `envAllOk` but the synthesized audio lasts 15 seconds. -/
def envLongAudio : PipelineEnv :=
  { envAllOk with
    synthesis := { success := true
                   error := ""
                   durationSeconds := 15
                   audioPath := "/tmp/s.wav" } }

/-- A configuration with a 10-second ceiling, cleanup requested. -/
def cfgMax10 : PipelineConfig :=
  { maxVideoLengthSeconds := 10
    cleanupIntermediates := true }

/-- A configuration with a 10-second ceiling, cleanup not requested. -/
def cfgMax10NoCleanup : PipelineConfig :=
  { maxVideoLengthSeconds := 10
    cleanupIntermediates := false }

/-! ## Helper lemmas -/

theorem jobStatus_ofString_value (s : JobStatus) :
    JobStatus.ofString s.value = some s := by
  cases s <;> rfl

theorem jobType_ofString_value (t : JobType) :
    JobType.ofString t.value = some t := by
  cases t <;> rfl

/-- Round trip: deserializing a serialized job recovers it exactly. -/
theorem Job.fromDict_toDict (j : Job) : Job.fromDict j.toDict = some j := by
  cases j with
  | mk jobId status jobType params createdAt startedAt completedAt
      result error progress stage =>
    cases status <;> cases jobType <;> rfl

theorem lookupEntry_saveEntry (store : List (String × JobDict))
    (id : String) (d : JobDict) :
    lookupEntry (saveEntry store id d) id = some d := by
  induction store with
  | nil => simp [saveEntry, lookupEntry]
  | cons kv rest ih =>
      obtain ⟨k, v⟩ := kv
      by_cases h : k = id
      · simp [saveEntry, lookupEntry, h]
      · simp [saveEntry, lookupEntry, h, ih]

theorem resultErrorInv_applyOp (j : Job) (op : JobOp)
    (hinv : resultErrorInv j) (hok : j.status.allows op = true) :
    resultErrorInv (j.applyOp op) := by
  obtain ⟨hmutex, hpre⟩ := hinv
  cases op with
  | start now =>
      have hs : j.status = .pending := by
        simpa [JobStatus.allows] using hok
      have hboth := hpre (by simp [hs, JobStatus.isTerminal])
      constructor
      · exact Or.inl (by simp [Job.applyOp, Job.start, hboth.1])
      · intro _
        simp [Job.applyOp, Job.start, hboth.1, hboth.2]
  | complete result now =>
      have hs : j.status = .running := by
        simpa [JobStatus.allows] using hok
      have hboth := hpre (by simp [hs, JobStatus.isTerminal])
      constructor
      · exact Or.inr (by simp [Job.applyOp, Job.complete, hboth.2])
      · intro hterm
        simp [Job.applyOp, Job.complete, JobStatus.isTerminal] at hterm
  | fail error now =>
      have hs : j.status = .running := by
        simpa [JobStatus.allows] using hok
      have hboth := hpre (by simp [hs, JobStatus.isTerminal])
      constructor
      · exact Or.inl (by simp [Job.applyOp, Job.fail, hboth.1])
      · intro hterm
        simp [Job.applyOp, Job.fail, JobStatus.isTerminal] at hterm
  | cancel now =>
      have hs : j.status = .pending := by
        simpa [JobStatus.allows] using hok
      have hboth := hpre (by simp [hs, JobStatus.isTerminal])
      constructor
      · exact Or.inl (by simp [Job.applyOp, Job.cancel, hboth.1])
      · intro hterm
        simp [Job.applyOp, Job.cancel, JobStatus.isTerminal] at hterm
  | updateProgress p stage =>
      constructor
      · rcases hmutex with h | h
        · exact Or.inl (by simp [Job.applyOp, Job.updateProgress, h])
        · exact Or.inr (by simp [Job.applyOp, Job.updateProgress, h])
      · intro hterm
        have : j.status.isTerminal = false := by
          simpa [Job.applyOp, Job.updateProgress] using hterm
        have hboth := hpre this
        simp [Job.applyOp, Job.updateProgress, hboth.1, hboth.2]

theorem resultErrorInv_applyOps (j : Job) (ops : List JobOp)
    (hinv : resultErrorInv j) (hvalid : j.validOps ops = true) :
    resultErrorInv (j.applyOps ops) := by
  induction ops generalizing j with
  | nil => simpa [Job.applyOps] using hinv
  | cons op rest ih =>
      simp only [Job.validOps, Bool.and_eq_true] at hvalid
      have h1 := resultErrorInv_applyOp j op hinv hvalid.1
      have := ih (j.applyOp op) h1 hvalid.2
      simpa [Job.applyOps] using this

/-! ## Claim theorems -/

/-- Claim C1: `canLoad(requiredMB, safetyMarginMB)` returns true iff the
accelerator is unavailable or `status()`'s free memory minus the margin is
at least the requirement; with the accelerator available it returns false
exactly when `requiredMB > free - margin`, and with it unavailable it
returns true for every `requiredMB`. -/
theorem canLoad_admission_spec (m : VRAMManager)
    (requiredMB safetyMarginMB : Int) :
    (m.canLoad requiredMB safetyMarginMB = true ↔
      (m.cudaAvailable = false ∨
        m.getStatus.freeMB - safetyMarginMB ≥ requiredMB)) ∧
    (m.cudaAvailable = true →
      (m.canLoad requiredMB safetyMarginMB = false ↔
        requiredMB > m.getStatus.freeMB - safetyMarginMB)) ∧
    (m.cudaAvailable = false →
      m.canLoad requiredMB safetyMarginMB = true) := by
  cases h : m.cudaAvailable
  · simp [VRAMManager.canLoad, VRAMManager.getStatus, h]
  · simp [VRAMManager.canLoad, VRAMManager.getStatus, h]

/-- Witness for C1: with 4096MB free and a 512MB margin, a 5000MB request
is denied; with the accelerator unavailable, a huge request is admitted. -/
theorem canLoad_admission_spec_witness :
    (VRAMManager.canLoad
      { cudaAvailable := true, totalMB := 8192, freeMB := 4096 }
      5000 512 = false) ∧
    (VRAMManager.canLoad
      { cudaAvailable := false, totalMB := 0, freeMB := 0 }
      1000000000 512 = true) := by
  constructor
  · exact ((canLoad_admission_spec
      { cudaAvailable := true, totalMB := 8192, freeMB := 4096 }
      5000 512).2.1 rfl).mpr (by decide)
  · exact (canLoad_admission_spec
      { cudaAvailable := false, totalMB := 0, freeMB := 0 }
      1000000000 512).2.2 rfl

/-- Claim C5: serializing a `Job` with `to_dict` and deserializing with
`from_dict` recovers the job exactly, for every job, optional fields
included. -/
theorem job_serialization_roundtrip (j : Job) :
    Job.fromDict j.toDict = some j :=
  Job.fromDict_toDict j

/-- Claim C7: `updateProgress(value, label)` stores the clamp of `value`
into [0, 1] and replaces the stage label, so progress is always in
[0, 1]; in particular -5 clamps to 0 and 5 clamps to 1. -/
theorem updateProgress_clamps (j : Job) (p : ℚ) (lbl : String) :
    ((j.updateProgress p lbl).progress = max 0 (min 1 p)) ∧
    (0 ≤ (j.updateProgress p lbl).progress) ∧
    ((j.updateProgress p lbl).progress ≤ 1) ∧
    ((j.updateProgress p lbl).stage = lbl) ∧
    ((j.updateProgress (-5) "x").progress = 0) ∧
    ((j.updateProgress 5 "x").progress = 1) := by
  refine ⟨rfl, le_max_left 0 _, ?_, rfl, ?_, ?_⟩
  · exact max_le (by norm_num) (min_le_left 1 p)
  · simp [Job.updateProgress]
  · simp [Job.updateProgress]

/-- Claim C10: `fail(error)` sets status Failed, `completedAt` and the
error, and leaves progress and every other field (id, type, parameters,
createdAt, startedAt, result) unchanged. -/
theorem fail_frame_condition (j : Job) (e now : String) :
    ((j.fail e now).status = JobStatus.failed) ∧
    ((j.fail e now).completedAt = some now) ∧
    ((j.fail e now).error = some e) ∧
    ((j.fail e now).progress = j.progress) ∧
    ((j.fail e now).jobId = j.jobId) ∧
    ((j.fail e now).jobType = j.jobType) ∧
    ((j.fail e now).params = j.params) ∧
    ((j.fail e now).createdAt = j.createdAt) ∧
    ((j.fail e now).startedAt = j.startedAt) ∧
    ((j.fail e now).result = j.result) :=
  ⟨rfl, rfl, rfl, rfl, rfl, rfl, rfl, rfl, rfl, rfl⟩

/-- Claim C9: along any operation sequence that respects the status state
machine from a freshly created job, `result` and `error` are never both
set, and both stay null until the status is terminal. -/
theorem result_error_mutually_exclusive (jobId : String) (jobType : JobType)
    (params : JsonVal) (createdAt : String) (ops : List JobOp)
    (hvalid : (Job.create jobId jobType params createdAt).validOps ops
      = true) :
    ¬(((Job.create jobId jobType params createdAt).applyOps ops).result
        ≠ none ∧
      ((Job.create jobId jobType params createdAt).applyOps ops).error
        ≠ none) ∧
    (((Job.create jobId jobType params createdAt).applyOps
        ops).status.isTerminal = false →
      ((Job.create jobId jobType params createdAt).applyOps ops).result
        = none ∧
      ((Job.create jobId jobType params createdAt).applyOps ops).error
        = none) := by
  have hinv : resultErrorInv (Job.create jobId jobType params createdAt) :=
    ⟨Or.inl rfl, fun _ => ⟨rfl, rfl⟩⟩
  obtain ⟨hmutex, hpre⟩ :=
    resultErrorInv_applyOps (Job.create jobId jobType params createdAt)
      ops hinv hvalid
  refine ⟨?_, hpre⟩
  rintro ⟨h1, h2⟩
  rcases hmutex with h | h
  · exact h1 h
  · exact h2 h

/-- Witness for C9: a concrete valid lifecycle (start, progress update,
complete) keeps `result`/`error` mutually exclusive. -/
theorem result_error_mutually_exclusive_witness :
    ¬(((Job.create "j1" JobType.fullPipeline JsonVal.jnull "t0").applyOps
        [JobOp.start "t1", JobOp.updateProgress (1/2) "working",
         JobOp.complete (JsonVal.jobj []) "t2"]).result ≠ none ∧
      ((Job.create "j1" JobType.fullPipeline JsonVal.jnull "t0").applyOps
        [JobOp.start "t1", JobOp.updateProgress (1/2) "working",
         JobOp.complete (JsonVal.jobj []) "t2"]).error ≠ none) :=
  (result_error_mutually_exclusive "j1" JobType.fullPipeline JsonVal.jnull
    "t0"
    [JobOp.start "t1", JobOp.updateProgress (1/2) "working",
     JobOp.complete (JsonVal.jobj []) "t2"] (by rfl)).1

/-- Claim C4: `cancel(id)` returns false and leaves the store unchanged
when the id is unknown or the stored job is not pending; on a pending job
(with the persist write succeeding) it returns true and the stored job is
now the cancelled job, with status Cancelled and `completedAt` set. -/
theorem cancel_transition_spec (q : JobQueue) (saveOk : Bool)
    (id now : String) :
    (q.get id = none → q.cancel saveOk id now = (false, q)) ∧
    (∀ job, q.get id = some job → job.status ≠ JobStatus.pending →
      q.cancel saveOk id now = (false, q)) ∧
    (∀ job, q.get id = some job → job.status = JobStatus.pending →
      saveOk = true →
      (q.cancel saveOk id now).1 = true ∧
      (q.cancel saveOk id now).2.get job.jobId = some (job.cancel now) ∧
      (job.cancel now).status = JobStatus.cancelled ∧
      (job.cancel now).completedAt = some now) := by
  refine ⟨?_, ?_, ?_⟩
  · intro h
    simp [JobQueue.cancel, h]
  · intro job hget hstat
    simp [JobQueue.cancel, hget, hstat]
  · intro job hget hstat hsave
    refine ⟨?_, ?_, rfl, rfl⟩
    · simp [JobQueue.cancel, hget, hstat]
    · have hid : (job.cancel now).jobId = job.jobId := rfl
      have hc : q.cancel saveOk id now
          = (true, (q.update saveOk (job.cancel now)).2) := by
        simp [JobQueue.cancel, hget, hstat]
      rw [hc]
      subst hsave
      simp [JobQueue.update, JobQueue.saveJob, JobQueue.get, hid,
        lookupEntry_saveEntry, Job.fromDict_toDict]

/-- Witness for C4: cancelling a concrete pending job succeeds and the
store reads back the cancelled job; cancelling the same id again is
rejected with the store unchanged. -/
theorem cancel_transition_spec_witness :
    ((JobQueue.cancel
        { store := [("job-1",
            (Job.create "job-1" JobType.fullPipeline JsonVal.jnull
              "t0").toDict)] }
        true "job-1" "t1").1 = true) ∧
    ((JobQueue.cancel
        { store := [("job-1",
            (Job.create "job-1" JobType.fullPipeline JsonVal.jnull
              "t0").toDict)] }
        true "job-1" "t1").2.get "job-1" =
      some ((Job.create "job-1" JobType.fullPipeline JsonVal.jnull
        "t0").cancel "t1")) := by
  have h := (cancel_transition_spec
    { store := [("job-1",
        (Job.create "job-1" JobType.fullPipeline JsonVal.jnull
          "t0").toDict)] }
    true "job-1" "t1").2.2
    (Job.create "job-1" JobType.fullPipeline JsonVal.jnull "t0")
    (by rfl) rfl rfl
  exact ⟨h.1, h.2.1⟩

/-- Claim C8 (divergence exhibit): `submit` propagates a failed persist
and `update` reports it as false, but `cancel` on a pending job whose
persist write fails still returns true while the stored record still
reads back as the original pending job — the lost write is silently
dropped. -/
theorem cancel_swallows_failed_write :
    ((JobQueue.update
        { store := [("job-8",
            (Job.create "job-8" JobType.fullPipeline JsonVal.jnull
              "t0").toDict)] }
        false
        (Job.create "job-8" JobType.fullPipeline JsonVal.jnull "t0")).1
      = false) ∧
    ((JobQueue.submit
        { store := [("job-8",
            (Job.create "job-8" JobType.fullPipeline JsonVal.jnull
              "t0").toDict)] }
        false "job-9" JobType.fullPipeline JsonVal.jnull "t1")
      = Except.error "Job save failed") ∧
    ((JobQueue.cancel
        { store := [("job-8",
            (Job.create "job-8" JobType.fullPipeline JsonVal.jnull
              "t0").toDict)] }
        false "job-8" "t1").1 = true) ∧
    ((JobQueue.cancel
        { store := [("job-8",
            (Job.create "job-8" JobType.fullPipeline JsonVal.jnull
              "t0").toDict)] }
        false "job-8" "t1").2.get "job-8" =
      some (Job.create "job-8" JobType.fullPipeline JsonVal.jnull "t0")) :=
  ⟨rfl, rfl, rfl, rfl⟩

set_option maxHeartbeats 2000000 in
/-- Claim C2: every run either succeeds with `stagesCompleted` exactly
the full fixed stage sequence in order, or fails with `stagesCompleted` a
strict prefix of it (`fullStages.take n` with `n < 5`), ending at the
last stage completed before the failure. -/
theorem stages_completed_spec (config : PipelineConfig) (env : PipelineEnv)
    (out : String) :
    ((execute config env out).success = true ∧
      (execute config env out).stagesCompleted = fullStages) ∨
    ((execute config env out).success = false ∧
      ∃ n, n < 5 ∧
        (execute config env out).stagesCompleted = fullStages.take n) := by
  unfold execute
  split_ifs
  · exact Or.inr ⟨rfl, 0, by norm_num, rfl⟩
  · exact Or.inr ⟨rfl, 1, by norm_num, rfl⟩
  · exact Or.inr ⟨rfl, 2, by norm_num, rfl⟩
  · exact Or.inr ⟨rfl, 2, by norm_num, rfl⟩
  · exact Or.inr ⟨rfl, 2, by norm_num, rfl⟩
  · exact Or.inr ⟨rfl, 2, by norm_num, rfl⟩
  · exact Or.inr ⟨rfl, 3, by norm_num, rfl⟩
  · exact Or.inr ⟨rfl, 4, by norm_num, rfl⟩
  · exact Or.inl ⟨rfl, rfl⟩
  · exact Or.inl ⟨rfl, rfl⟩

/-- Counterexample to claim C3: a run that fails at the duration check
after recording the audio intermediate, with cleanup not requested,
returns a null `intermediate_files` rather than the recorded map. -/
theorem intermediates_dropped_on_failure :
    ((execute cfgMax10NoCleanup envLongAudio "out.mp4").success = false) ∧
    ((execute cfgMax10NoCleanup envLongAudio "out.mp4").intermediateFiles
      = none) := by
  norm_num [execute, cfgMax10NoCleanup, envLongAudio, envAllOk, failResult]

set_option maxHeartbeats 4000000 in
/-- Claim C3 as amended: a failed run's result always carries a null
intermediate-artifacts map; the recorded map (audio and lip-sync paths)
is preserved exactly on successful runs where cleanup was not requested,
and cleared on successful runs where cleanup was requested. -/
theorem intermediates_preserved_amended (config : PipelineConfig)
    (env : PipelineEnv) (out : String) :
    ((execute config env out).success = false ∧
      (execute config env out).intermediateFiles = none) ∨
    ((execute config env out).success = true ∧
      (execute config env out).intermediateFiles =
        (if config.cleanupIntermediates then none
         else some [("audio", env.synthesis.audioPath),
                    ("lipsync", env.lipsync.videoPath)])) := by
  unfold execute
  split_ifs <;>
    first
      | exact Or.inl ⟨rfl, rfl⟩
      | exact Or.inr ⟨rfl, rfl⟩

/-- Claim C6: when profile loading and synthesis succeed but the audio
duration exceeds the configured maximum, the run fails right after the
synthesis stage with the duration-limit error and `stagesCompleted =
["load_profile", "synthesize_speech"]`; the result does not depend on any
later stage outcome, and the default ceiling is 120 seconds. -/
theorem duration_ceiling_spec (config : PipelineConfig) (env : PipelineEnv)
    (out : String) (hp : env.loadProfileOk = true)
    (hs : env.synthesis.success = true)
    (hd : env.synthesis.durationSeconds >
      (config.maxVideoLengthSeconds : ℚ)) :
    ((execute config env out).success = false) ∧
    ((execute config env out).stagesCompleted =
      ["load_profile", "synthesize_speech"]) ∧
    ((execute config env out).error = some "Audio too long") ∧
    (defaultPipelineConfig.maxVideoLengthSeconds = 120) := by
  have hx : execute config env out
      = failResult ["load_profile", "synthesize_speech"] "Audio too long"
          env.processingTime := by
    unfold execute
    simp [hp, hs, hd]
  rw [hx]
  exact ⟨rfl, rfl, rfl, rfl⟩

/-- Witness for C6: the spec's scenario — ceiling 10s, produced 15s —
fails with the duration error and exactly the first two stages
completed. -/
theorem duration_ceiling_spec_witness :
    ((execute cfgMax10 envLongAudio "out.mp4").success = false) ∧
    ((execute cfgMax10 envLongAudio "out.mp4").stagesCompleted =
      ["load_profile", "synthesize_speech"]) := by
  have h := duration_ceiling_spec cfgMax10 envLongAudio "out.mp4"
    rfl rfl (by norm_num [envLongAudio, envAllOk, cfgMax10])
  exact ⟨h.1, h.2.1⟩

end Pilot
